import Mathlib

/-!
# Verification of the ThingsIX gateway YAML key store

Shallow embedding of `gateway/keystore_yaml.go`: a file-backed store of
gateway credential records with linear-scan lookups, an append-only write
path and a full reload after every successful write.

The store logic (`load`, `AddGateway`, the five lookup functions,
`LoadGatewayYamlFileStore`, `Gateways`) is translated directly from the
source.  External capabilities that the source consumes but that are not
part of this file — the YAML codec, the filesystem, the hex/ECDSA key codec
and the identity derivation performed by `NewGateway` — are modelled from
the spec, which treats them as opaque collaborators; each such definition
carries a doc comment saying so.  Byte strings are modelled as `List Nat`
and the private-key type is an arbitrary type `K`, with the key codec and
the derivation packaged in a `CryptoOps K` record that every operation is
parametrised by.
-/

set_option autoImplicit false

namespace ThingsIx

/-- `lorawan.EUI64`, an 8-byte identifier, modelled as a list of bytes. -/
abbrev EUI64 := List Nat

/-- The persisted (on-disk) form of one record: `gatewayYAML` from the
source, with fields `local_id` and `private_key` (a hex string). -/
structure gatewayYAML where
  LocalID : EUI64
  PrivateKey : String
deriving DecidableEq, Repr

/-- The in-memory gateway record.  The fields are the ones the store code
reads: the local ID, the two derived identifiers and the decoded key. -/
structure Gateway (K : Type) where
  LocalGatewayID : EUI64
  NetworkGatewayID : EUI64
  CompressedPublicKeyBytes : List Nat
  privateKey : K
deriving DecidableEq, Repr

/-- Modelled from the spec: the error taxonomy.  `ErrNotFound`,
`ErrInvalidGatewayID`, `ErrAlreadyExists` and `ErrStoreNotExists` are
sentinel errors declared outside this file; the remaining constructors
stand for the wrapped `fmt.Errorf` values produced by `load` and
`AddGateway` and for a raw filesystem write error. -/
inductive Err where
  | notFound
  | invalidGatewayID
  | alreadyExists
  | storeNotExists
  | decodeError
  | keyDecodeError
  | gatewayLoadError
  | encodeError
  | ioError
deriving DecidableEq, Repr

/-- Modelled from the spec: the raw bytes of the store file, abstracted to
whether they are a well-formed YAML list of records (and which records) or
malformed text. -/
inductive Raw where
  | wellFormed (records : List gatewayYAML)
  | malformed
deriving DecidableEq, Repr

/-- Modelled from the spec: concatenating two chunks of file bytes.  A
well-formed YAML list followed by another well-formed YAML list is the
well-formed concatenation of the two lists (the file format of §6: append
always adds to the end, record order preserved as written). -/
def Raw.append : Raw → Raw → Raw
  | .wellFormed a, .wellFormed b => .wellFormed (a ++ b)
  | _, _ => .malformed

/-- Modelled from the spec: `len(data) == 0` on the raw bytes.  The only
raw value of byte length zero is the empty well-formed list. -/
def Raw.isEmpty : Raw → Bool
  | .wellFormed [] => true
  | _ => false

/-- Modelled from the spec: the error kinds `os.ReadFile` can report that
the source distinguishes with `errors.Is(err, os.ErrNotExist)`. -/
inductive ReadErr where
  | notExist
  | otherErr
deriving DecidableEq, Repr

/-- Modelled from the spec: the state of the backing file — absent, present
with some raw content, or failing with a non-absence I/O error. -/
inductive FileSys where
  | absent
  | present (data : Raw)
  | ioError
deriving DecidableEq, Repr

/-- Modelled from the spec: `os.ReadFile`.  An absent file yields zero
bytes and the not-exist error; a present file yields its content; a faulty
filesystem yields some other error. -/
def readFile : FileSys → Raw × Option ReadErr
  | .absent => (.wellFormed [], some .notExist)
  | .present d => (d, none)
  | .ioError => (.wellFormed [], some .otherErr)

/-- Modelled from the spec: `os.OpenFile(path, O_APPEND|O_CREATE|O_WRONLY)`
followed by `Write` and `Close`.  Creates the file when absent, appends to
a present file, fails on a faulty filesystem. -/
def appendFile (fs : FileSys) (enc : Raw) : Except Err FileSys :=
  match fs with
  | .ioError => .error Err.ioError
  | .absent => .ok (.present enc)
  | .present d => .ok (.present (d.append enc))

/-- Modelled from the spec: `yaml.Unmarshal` — decode the raw bytes into a
record list, failing on malformed text. -/
def yamlUnmarshal : Raw → Except Unit (List gatewayYAML)
  | .wellFormed l => .ok l
  | .malformed => .error ()

/-- Modelled from the spec: `yaml.Marshal` on a record list — encoding a
record list always succeeds and yields its well-formed raw form. -/
def yamlMarshal (l : List gatewayYAML) : Except Unit Raw :=
  .ok (.wellFormed l)

/-- Modelled from the spec: the opaque key codec and identity derivation
the store consumes.  `hexToECDSA` is `crypto.HexToECDSA` (hex decode plus
key parse), `fromECDSA` is `hex.EncodeToString(crypto.FromECDSA(key))`, and
`derive` produces the network-facing 8-byte ID together with the 32-byte
compressed-public-key hash. -/
structure CryptoOps (K : Type) where
  hexToECDSA : String → Except Unit K
  fromECDSA : K → String
  derive : K → Except Unit (EUI64 × List Nat)

variable {K : Type}

/-- Modelled from the spec: `NewGateway` (defined outside this file) builds
the in-memory record from the local ID and the decoded private key,
deriving the network ID and the ThingsIX hash from the key via the opaque
identity-derivation capability; derivation failure is an error. -/
def NewGateway (ops : CryptoOps K) (localID : EUI64) (key : K) :
    Except Unit (Gateway K) :=
  match ops.derive key with
  | .error e => .error e
  | .ok p =>
      .ok { LocalGatewayID := localID, NetworkGatewayID := p.1,
            CompressedPublicKeyBytes := p.2, privateKey := key }

/-- The store: a file path and the in-memory ordered list of records
(`GatewayYamlFileStore` from the source). -/
structure GatewayYamlFileStore (K : Type) where
  Path : String
  gateways : List (Gateway K)
deriving DecidableEq, Repr

/-- The loop body of `load`: decode each persisted record in order, first
error wins — `crypto.HexToECDSA` failure becomes the key-decode error,
`NewGateway` failure the gateway-load error. -/
def decodeGateways (ops : CryptoOps K) : List gatewayYAML → Except Err (List (Gateway K))
  | [] => .ok []
  | gw :: rest =>
    match ops.hexToECDSA gw.PrivateKey with
    | .error _ => .error Err.keyDecodeError
    | .ok key =>
      match NewGateway ops gw.LocalID key with
      | .error _ => .error Err.gatewayLoadError
      | .ok g =>
        match decodeGateways ops rest with
        | .error e => .error e
        | .ok gs => .ok (g :: gs)

/-- The tail of `load` after the read: unmarshal the raw bytes, decode every
record, and on success replace the in-memory list in one assignment. -/
def loadDecode (ops : CryptoOps K) (raw : Raw) (store : GatewayYamlFileStore K) :
    GatewayYamlFileStore K × Option Err :=
  match yamlUnmarshal raw with
  | .error _ => (store, some Err.decodeError)
  | .ok gws =>
    match decodeGateways ops gws with
    | .error e => (store, some e)
    | .ok loaded => ({ store with gateways := loaded }, none)

/-- `load` from the source: read the file; a read error other than
not-exist is `ErrStoreNotExists`; a not-exist error with zero bytes read is
success without touching the list; otherwise decode and replace the list.
The pair returned is the store after the call and the error returned. -/
def load (ops : CryptoOps K) (fs : FileSys) (store : GatewayYamlFileStore K) :
    GatewayYamlFileStore K × Option Err :=
  match readFile fs with
  | (raw, some e) =>
    if e ≠ ReadErr.notExist then (store, some Err.storeNotExists)
    else if raw.isEmpty then (store, none)
    else loadDecode ops raw store
  | (raw, none) => loadDecode ops raw store

/-- `LoadGatewayYamlFileStore` from the source: build a store for the path
and run `load`; any load error aborts construction. -/
def LoadGatewayYamlFileStore (ops : CryptoOps K) (fs : FileSys) (path : String) :
    Except Err (GatewayYamlFileStore K) :=
  match load ops fs { Path := path, gateways := [] } with
  | (store, none) => .ok store
  | (_, some e) => .error e

/-- `Gateways` from the source: the in-memory list. -/
def Gateways (store : GatewayYamlFileStore K) : List (Gateway K) :=
  store.gateways

/-- The linear first-match scan shared by the three fixed-width lookups:
walk the list, return the first record satisfying the match, else
`ErrNotFound`. -/
def firstMatch (p : Gateway K → Prop) [DecidablePred p] :
    List (Gateway K) → Except Err (Gateway K)
  | [] => .error Err.notFound
  | gw :: rest => if p gw then .ok gw else firstMatch p rest

/-- `GatewayByThingsIxID`: scan for a record whose compressed-public-key
bytes equal the given 32-byte ID (`bytes.Equal(gw.CompressedPublicKeyBytes, id[:])`). -/
def GatewayByThingsIxID (store : GatewayYamlFileStore K) (id : List Nat) :
    Except Err (Gateway K) :=
  firstMatch (fun gw => gw.CompressedPublicKeyBytes = id) store.gateways

/-- `GatewayByLocalID`: scan for a record with the given local ID. -/
def GatewayByLocalID (store : GatewayYamlFileStore K) (id : EUI64) :
    Except Err (Gateway K) :=
  firstMatch (fun gw => gw.LocalGatewayID = id) store.gateways

/-- `GatewayByNetworkID`: scan for a record with the given network ID. -/
def GatewayByNetworkID (store : GatewayYamlFileStore K) (id : EUI64) :
    Except Err (Gateway K) :=
  firstMatch (fun gw => gw.NetworkGatewayID = id) store.gateways

/-- `var gid lorawan.EUI64; copy(gid[:], id)`: the 8-byte array filled from
the buffer — the first eight bytes of `id`, zero padded when shorter. -/
def copyEUI64 (id : List Nat) : EUI64 :=
  id.take 8 ++ List.replicate (8 - id.length) 0

/-- `GatewayByLocalIDBytes`: delegate to the fixed lookup when the buffer
is exactly 8 bytes, else `ErrInvalidGatewayID`. -/
def GatewayByLocalIDBytes (store : GatewayYamlFileStore K) (id : List Nat) :
    Except Err (Gateway K) :=
  if id.length = 8 then GatewayByLocalID store (copyEUI64 id)
  else .error Err.invalidGatewayID

/-- `GatewayByNetworkIDBytes`: delegate to the fixed lookup when the buffer
is exactly 8 bytes, else `ErrInvalidGatewayID`. -/
def GatewayByNetworkIDBytes (store : GatewayYamlFileStore K) (id : List Nat) :
    Except Err (Gateway K) :=
  if id.length = 8 then GatewayByNetworkID store (copyEUI64 id)
  else .error Err.invalidGatewayID

/-- The body of `AddGateway` after the duplicate check: marshal the
one-element record list, append it to the file (file and list untouched on
failure), and on a successful write re-run `load`.  Returns the file state,
the store and the error after the call. -/
def addGatewayBody (ops : CryptoOps K) (fs : FileSys) (store : GatewayYamlFileStore K)
    (localID : EUI64) (key : K) :
    FileSys × GatewayYamlFileStore K × Option Err :=
  match yamlMarshal [{ LocalID := localID, PrivateKey := ops.fromECDSA key }] with
  | .error _ => (fs, store, some Err.encodeError)
  | .ok encoded =>
    match appendFile fs encoded with
    | .error e => (fs, store, some e)
    | .ok fs2 => (fs2, (load ops fs2 store).1, (load ops fs2 store).2)

/-- `AddGateway` from the source: look the local ID up first — not-found
proceeds, success is `ErrAlreadyExists`, any other lookup error is
propagated unchanged — then encode, append and reload. -/
def AddGateway (ops : CryptoOps K) (fs : FileSys) (store : GatewayYamlFileStore K)
    (localID : EUI64) (key : K) :
    FileSys × GatewayYamlFileStore K × Option Err :=
  match GatewayByLocalID store localID with
  | .error Err.notFound => addGatewayBody ops fs store localID key
  | .ok _ => (fs, store, some Err.alreadyExists)
  | .error e => (fs, store, some e)

/-- `AddGateway` with the defensive default branch of its switch removed:
every lookup error — not only `ErrNotFound` — lets the insert proceed.
Coinciding with `AddGateway` everywhere shows the default branch
unreachable. -/
def AddGatewayNoDefault (ops : CryptoOps K) (fs : FileSys) (store : GatewayYamlFileStore K)
    (localID : EUI64) (key : K) :
    FileSys × GatewayYamlFileStore K × Option Err :=
  match GatewayByLocalID store localID with
  | .error _ => addGatewayBody ops fs store localID key
  | .ok _ => (fs, store, some Err.alreadyExists)

/-- The record list a fresh `load` computes from the file alone: empty for
an absent file, the decoded records for a present one, an error for a
malformed or unreadable one.  Used to state that a store's in-memory list
is in sync with the file. -/
def decodeFile (ops : CryptoOps K) (fs : FileSys) : Except Err (List (Gateway K)) :=
  match fs with
  | .ioError => .error Err.storeNotExists
  | .absent => .ok []
  | .present raw =>
    match yamlUnmarshal raw with
    | .error _ => .error Err.decodeError
    | .ok gws => decodeGateways ops gws

/-! ## Concrete instances used to evaluate the development -/

/-- A concrete executable instance of the opaque capabilities over `K = Nat`:
keys encode to a string of as many letters as the key, decode back by taking
the length, and derive to constant 8- and 32-byte vectors of the key. -/
def wOps : CryptoOps Nat where
  hexToECDSA s := .ok s.length
  fromECDSA k := String.mk (List.replicate k (Char.ofNat 97))
  derive k := .ok (List.replicate 8 k, List.replicate 32 k)

/-- A concrete 8-byte local ID. -/
def wId1 : EUI64 := [0, 0, 0, 0, 0, 0, 0, 1]

/-- A second, distinct concrete 8-byte local ID. -/
def wId2 : EUI64 := [0, 0, 0, 0, 0, 0, 0, 2]

/-- The record `wOps` produces for `wId1` and key `1`. -/
def wGw1 : Gateway Nat :=
  { LocalGatewayID := wId1, NetworkGatewayID := List.replicate 8 1,
    CompressedPublicKeyBytes := List.replicate 32 1, privateKey := 1 }

/-- A record sharing `wGw1`'s local ID but differing elsewhere. -/
def wGw1b : Gateway Nat :=
  { LocalGatewayID := wId1, NetworkGatewayID := List.replicate 8 3,
    CompressedPublicKeyBytes := List.replicate 32 3, privateKey := 3 }

/-- An empty concrete store. -/
def wStoreEmpty : GatewayYamlFileStore Nat :=
  { Path := "p", gateways := [] }

/-- A concrete store holding one record. -/
def wStoreOne : GatewayYamlFileStore Nat :=
  { Path := "p", gateways := [wGw1] }

/-- A concrete store holding two records with the same local ID. -/
def wStoreDup : GatewayYamlFileStore Nat :=
  { Path := "p", gateways := [wGw1, wGw1b] }

/-- The record `wOps` produces for `wId2` and key `2`. -/
def wGw2 : Gateway Nat :=
  { LocalGatewayID := wId2, NetworkGatewayID := List.replicate 8 2,
    CompressedPublicKeyBytes := List.replicate 32 2, privateKey := 2 }

/-- A concrete store holding the records for `wId1` and `wId2`. -/
def wStoreTwo : GatewayYamlFileStore Nat :=
  { Path := "p", gateways := [wGw1, wGw2] }

/-- The persisted form of `wGw1` under `wOps`. -/
def wRec1 : gatewayYAML :=
  { LocalID := wId1, PrivateKey := wOps.fromECDSA 1 }

/-- The persisted form of `wGw2` under `wOps`. -/
def wRec2 : gatewayYAML :=
  { LocalID := wId2, PrivateKey := wOps.fromECDSA 2 }

/-! ## Helper lemmas about the scan, the decoder and `load` -/

theorem firstMatch_eq_notFound {p : Gateway K → Prop} [DecidablePred p]
    {l : List (Gateway K)} (h : ∀ g ∈ l, ¬ p g) :
    firstMatch p l = .error Err.notFound := by
  induction l with
  | nil => rfl
  | cons gw rest ih =>
    have hgw : ¬ p gw := h gw (List.mem_cons_self gw rest)
    simp only [firstMatch, if_neg hgw]
    exact ih fun g hg => h g (List.mem_cons_of_mem gw hg)

theorem firstMatch_error {p : Gateway K → Prop} [DecidablePred p]
    {l : List (Gateway K)} {e : Err} (h : firstMatch p l = .error e) :
    e = Err.notFound ∧ ∀ g ∈ l, ¬ p g := by
  induction l with
  | nil =>
    simp only [firstMatch, Except.error.injEq] at h
    exact ⟨h.symm, by simp⟩
  | cons gw rest ih =>
    by_cases hgw : p gw
    · simp only [firstMatch, if_pos hgw] at h
      exact absurd h (by simp)
    · simp only [firstMatch, if_neg hgw] at h
      obtain ⟨he, hrest⟩ := ih h
      refine ⟨he, ?_⟩
      intro g hg
      rcases List.mem_cons.mp hg with hg | hg
      · exact hg ▸ hgw
      · exact hrest g hg

theorem firstMatch_append_first {p : Gateway K → Prop} [DecidablePred p]
    {pre post : List (Gateway K)} {g : Gateway K}
    (hpre : ∀ g2 ∈ pre, ¬ p g2) (hg : p g) :
    firstMatch p (pre ++ g :: post) = .ok g := by
  induction pre with
  | nil => simp only [List.nil_append, firstMatch, if_pos hg]
  | cons gw rest ih =>
    have hgw : ¬ p gw := hpre gw (List.mem_cons_self gw rest)
    simp only [List.cons_append, firstMatch, if_neg hgw]
    exact ih fun g2 hg2 => hpre g2 (List.mem_cons_of_mem gw hg2)

theorem firstMatch_cases (p : Gateway K → Prop) [DecidablePred p]
    (l : List (Gateway K)) :
    (∃ g, firstMatch p l = .ok g) ∨ firstMatch p l = .error Err.notFound := by
  induction l with
  | nil => exact Or.inr rfl
  | cons gw rest ih =>
    by_cases hgw : p gw
    · exact Or.inl ⟨gw, by simp only [firstMatch, if_pos hgw]⟩
    · simpa only [firstMatch, if_neg hgw] using ih

theorem decodeGateways_append (ops : CryptoOps K) (a b : List gatewayYAML) :
    decodeGateways ops (a ++ b) =
      match decodeGateways ops a with
      | .error e => .error e
      | .ok ga =>
        match decodeGateways ops b with
        | .error e => .error e
        | .ok gb => .ok (ga ++ gb) := by
  induction a with
  | nil => cases h : decodeGateways ops b <;> simp [decodeGateways, h]
  | cons gw rest ih =>
    cases hk : ops.hexToECDSA gw.PrivateKey with
    | error e => simp [decodeGateways, hk]
    | ok key =>
      cases hng : NewGateway ops gw.LocalID key with
      | error e => simp [decodeGateways, hk, hng]
      | ok g =>
        cases ha : decodeGateways ops rest with
        | error e => simp [decodeGateways, hk, hng, ih, ha]
        | ok ga =>
          cases hb : decodeGateways ops b with
          | error e => simp [decodeGateways, hk, hng, ih, ha, hb]
          | ok gb => simp [decodeGateways, hk, hng, ih, ha, hb]

theorem load_absent (ops : CryptoOps K) (store : GatewayYamlFileStore K) :
    load ops FileSys.absent store = (store, none) := rfl

theorem load_ioError (ops : CryptoOps K) (store : GatewayYamlFileStore K) :
    load ops FileSys.ioError store = (store, some Err.storeNotExists) := rfl

theorem load_present (ops : CryptoOps K) (raw : Raw) (store : GatewayYamlFileStore K) :
    load ops (FileSys.present raw) store = loadDecode ops raw store := rfl

theorem load_present_ok {ops : CryptoOps K} {recs : List gatewayYAML}
    {L : List (Gateway K)} (store : GatewayYamlFileStore K)
    (h : decodeGateways ops recs = .ok L) :
    load ops (FileSys.present (Raw.wellFormed recs)) store =
      ({ store with gateways := L }, none) := by
  simp [load_present, loadDecode, yamlUnmarshal, h]

theorem load_error_frame {ops : CryptoOps K} {fs : FileSys}
    {store : GatewayYamlFileStore K} {e : Err}
    (h : (load ops fs store).2 = some e) : (load ops fs store).1 = store := by
  cases fs with
  | absent => exact absurd h (by simp [load_absent])
  | ioError => rfl
  | present raw =>
    cases raw with
    | malformed => rfl
    | wellFormed recs =>
      cases hd : decodeGateways ops recs with
      | error e2 => simp [load_present, loadDecode, yamlUnmarshal, hd]
      | ok L =>
        rw [load_present_ok store hd] at h
        exact absurd h (by simp)

theorem load_success {ops : CryptoOps K} {fs : FileSys}
    {store : GatewayYamlFileStore K}
    (h : (load ops fs store).2 = none) :
    (fs = FileSys.absent ∧ (load ops fs store).1 = store) ∨
    (∃ L, decodeFile ops fs = .ok L ∧
      (load ops fs store).1 = { store with gateways := L }) := by
  cases fs with
  | absent => exact Or.inl ⟨rfl, rfl⟩
  | ioError => exact absurd h (by simp [load_ioError])
  | present raw =>
    cases raw with
    | malformed => exact absurd h (by simp [load_present, loadDecode, yamlUnmarshal])
    | wellFormed recs =>
      cases hd : decodeGateways ops recs with
      | error e2 =>
        rw [load_present, loadDecode] at h
        simp only [yamlUnmarshal, hd] at h
        exact absurd h (by simp)
      | ok L =>
        refine Or.inr ⟨L, ?_, ?_⟩
        · simp [decodeFile, yamlUnmarshal, hd]
        · rw [load_present_ok store hd]

theorem loadDecode_single {ops : CryptoOps K} {rec : gatewayYAML}
    {k2 : K} {nid : EUI64} {hash : List Nat}
    (hx : ops.hexToECDSA rec.PrivateKey = .ok k2)
    (hd : ops.derive k2 = .ok (nid, hash)) :
    decodeGateways ops [rec] =
      .ok [{ LocalGatewayID := rec.LocalID, NetworkGatewayID := nid,
             CompressedPublicKeyBytes := hash, privateKey := k2 }] := by
  simp [decodeGateways, hx, NewGateway, hd]

theorem load_appended_success {ops : CryptoOps K} {recs : List gatewayYAML}
    {rec : gatewayYAML} {store : GatewayYamlFileStore K}
    (h : (load ops (FileSys.present (Raw.wellFormed (recs ++ [rec]))) store).2 = none) :
    ∃ k2 nid hash old,
      ops.hexToECDSA rec.PrivateKey = Except.ok k2 ∧
      ops.derive k2 = Except.ok (nid, hash) ∧
      decodeGateways ops recs = Except.ok old ∧
      (load ops (FileSys.present (Raw.wellFormed (recs ++ [rec]))) store).1 =
        { store with gateways :=
          old ++ [{ LocalGatewayID := rec.LocalID, NetworkGatewayID := nid,
                    CompressedPublicKeyBytes := hash, privateKey := k2 }] } := by
  have happ := decodeGateways_append ops recs [rec]
  cases hr : decodeGateways ops recs with
  | error e =>
    rw [hr] at happ
    rw [load_present, loadDecode] at h
    simp only [yamlUnmarshal, happ] at h
    exact absurd h (by simp)
  | ok old =>
    rw [hr] at happ
    cases hx : ops.hexToECDSA rec.PrivateKey with
    | error u =>
      have hone : decodeGateways ops [rec] = (.error Err.keyDecodeError : Except Err (List (Gateway K))) := by
        simp [decodeGateways, hx]
      rw [hone] at happ
      rw [load_present, loadDecode] at h
      simp only [yamlUnmarshal, happ] at h
      exact absurd h (by simp)
    | ok k2 =>
      cases hd : ops.derive k2 with
      | error u =>
        have hone : decodeGateways ops [rec] = (.error Err.gatewayLoadError : Except Err (List (Gateway K))) := by
          simp [decodeGateways, hx, NewGateway, hd]
        rw [hone] at happ
        rw [load_present, loadDecode] at h
        simp only [yamlUnmarshal, happ] at h
        exact absurd h (by simp)
      | ok p =>
        have hd2 : ops.derive k2 = .ok (p.1, p.2) := by rw [hd]
        rw [loadDecode_single hx hd2] at happ
        refine ⟨k2, p.1, p.2, old, rfl, hd2, rfl, ?_⟩
        rw [load_present_ok store happ]

theorem addGatewayBody_success {ops : CryptoOps K} {fs fs2 : FileSys}
    {store store2 : GatewayYamlFileStore K} {localID : EUI64} {key : K}
    (h : addGatewayBody ops fs store localID key = (fs2, store2, none)) :
    ∃ recs k2 nid hash old,
      (fs = FileSys.absent ∧ recs = [] ∨ fs = FileSys.present (Raw.wellFormed recs)) ∧
      fs2 = FileSys.present (Raw.wellFormed
        (recs ++ [{ LocalID := localID, PrivateKey := ops.fromECDSA key }])) ∧
      ops.hexToECDSA (ops.fromECDSA key) = Except.ok k2 ∧
      ops.derive k2 = Except.ok (nid, hash) ∧
      decodeGateways ops recs = Except.ok old ∧
      store2 = { store with gateways :=
        old ++ [{ LocalGatewayID := localID, NetworkGatewayID := nid,
                  CompressedPublicKeyBytes := hash, privateKey := k2 }] } := by
  cases fs with
  | ioError => exact absurd h (by simp [addGatewayBody, yamlMarshal, appendFile])
  | absent =>
    simp only [addGatewayBody, yamlMarshal, appendFile] at h
    rw [Prod.mk.injEq, Prod.mk.injEq] at h
    obtain ⟨hfs2, hst2, herr⟩ := h
    have herr2 : (load ops (FileSys.present (Raw.wellFormed
        ([] ++ [{ LocalID := localID, PrivateKey := ops.fromECDSA key }]))) store).2 = none := by
      simpa using herr
    obtain ⟨k2, nid, hash, old, hx, hd, hr, hload⟩ := load_appended_success herr2
    refine ⟨[], k2, nid, hash, old, Or.inl ⟨rfl, rfl⟩, by simpa using hfs2.symm, hx, hd, hr, ?_⟩
    rw [← hst2]
    simpa using hload
  | present raw =>
    cases raw with
    | malformed =>
      exact absurd h (by simp [addGatewayBody, yamlMarshal, appendFile, Raw.append,
        load_present, loadDecode, yamlUnmarshal])
    | wellFormed recs =>
      simp only [addGatewayBody, yamlMarshal, appendFile, Raw.append] at h
      rw [Prod.mk.injEq, Prod.mk.injEq] at h
      obtain ⟨hfs2, hst2, herr⟩ := h
      obtain ⟨k2, nid, hash, old, hx, hd, hr, hload⟩ := load_appended_success herr
      refine ⟨recs, k2, nid, hash, old, Or.inr rfl, hfs2.symm, hx, hd, hr, ?_⟩
      rw [← hst2, hload]

theorem addGateway_success {ops : CryptoOps K} {fs fs2 : FileSys}
    {store store2 : GatewayYamlFileStore K} {localID : EUI64} {key : K}
    (h : AddGateway ops fs store localID key = (fs2, store2, none)) :
    GatewayByLocalID store localID = .error Err.notFound ∧
    ∃ recs k2 nid hash old,
      (fs = FileSys.absent ∧ recs = [] ∨ fs = FileSys.present (Raw.wellFormed recs)) ∧
      fs2 = FileSys.present (Raw.wellFormed
        (recs ++ [{ LocalID := localID, PrivateKey := ops.fromECDSA key }])) ∧
      ops.hexToECDSA (ops.fromECDSA key) = Except.ok k2 ∧
      ops.derive k2 = Except.ok (nid, hash) ∧
      decodeGateways ops recs = Except.ok old ∧
      store2 = { store with gateways :=
        old ++ [{ LocalGatewayID := localID, NetworkGatewayID := nid,
                  CompressedPublicKeyBytes := hash, privateKey := k2 }] } := by
  cases hl : GatewayByLocalID store localID with
  | ok g =>
    rw [AddGateway.eq_def, hl] at h
    exact absurd h (by simp)
  | error e =>
    obtain ⟨he, _⟩ := firstMatch_error hl
    subst he
    rw [AddGateway.eq_def, hl] at h
    exact ⟨rfl, addGatewayBody_success h⟩

theorem addGateway_fresh_success {ops : CryptoOps K} {fs : FileSys}
    {store : GatewayYamlFileStore K} {localID : EUI64} {key : K}
    {nid : EUI64} {hash : List Nat}
    (hsync : decodeFile ops fs = .ok store.gateways)
    (hl0 : GatewayByLocalID store localID = .error Err.notFound)
    (hrt : ops.hexToECDSA (ops.fromECDSA key) = .ok key)
    (hd : ops.derive key = .ok (nid, hash)) :
    ∃ fs1, AddGateway ops fs store localID key =
      (fs1, { store with gateways := store.gateways ++
        [{ LocalGatewayID := localID, NetworkGatewayID := nid,
           CompressedPublicKeyBytes := hash, privateKey := key }] }, none) := by
  have hdec1 : decodeGateways ops [{ LocalID := localID, PrivateKey := ops.fromECDSA key }] =
      .ok [{ LocalGatewayID := localID, NetworkGatewayID := nid,
             CompressedPublicKeyBytes := hash, privateKey := key }] :=
    loadDecode_single hrt hd
  cases fs with
  | ioError => exact absurd hsync (by simp [decodeFile])
  | absent =>
    have h2 : (Except.ok [] : Except Err (List (Gateway K))) = .ok store.gateways := hsync
    injection h2 with h3
    refine ⟨FileSys.present (Raw.wellFormed
      [{ LocalID := localID, PrivateKey := ops.fromECDSA key }]), ?_⟩
    rw [AddGateway.eq_def, hl0]
    simp only [addGatewayBody, yamlMarshal, appendFile]
    rw [load_present_ok store hdec1]
    rw [← h3]
    rfl
  | present raw =>
    cases raw with
    | malformed => exact absurd hsync (by simp [decodeFile, yamlUnmarshal])
    | wellFormed recs =>
      have hdecr : decodeGateways ops recs = .ok store.gateways := hsync
      have happ : decodeGateways ops
          (recs ++ [{ LocalID := localID, PrivateKey := ops.fromECDSA key }]) =
          .ok (store.gateways ++
            [{ LocalGatewayID := localID, NetworkGatewayID := nid,
               CompressedPublicKeyBytes := hash, privateKey := key }]) := by
        rw [decodeGateways_append, hdecr, hdec1]
      refine ⟨FileSys.present (Raw.wellFormed
        (recs ++ [{ LocalID := localID, PrivateKey := ops.fromECDSA key }])), ?_⟩
      rw [AddGateway.eq_def, hl0]
      simp only [addGatewayBody, yamlMarshal, appendFile, Raw.append]
      rw [load_present_ok store happ]

/-! ## The claims -/

/-- C1 counterexample: the claim "load either fully succeeds and replaces
the in-memory list, or leaves it untouched and returns an error" fails on
an absent file combined with a non-empty previous list: `load` succeeds
(no error), the decoded file content is the empty list, and yet the
in-memory list is not replaced by it. -/
theorem C1_load_replace_counterexample :
    (load wOps FileSys.absent wStoreOne).2 = none ∧
    decodeFile wOps FileSys.absent = .ok ([] : List (Gateway Nat)) ∧
    (load wOps FileSys.absent wStoreOne).1.gateways ≠ [] :=
  ⟨rfl, rfl, by decide⟩

/-- C1 (amended): `load` leaves the previous in-memory list untouched on
every error; on success it either replaced the list in one atomic
assignment with the file's decoded content, or the file was absent, in
which case load succeeds while leaving the previous list untouched. -/
theorem C1_load_atomic {K : Type} (ops : CryptoOps K) (fs : FileSys)
    (store : GatewayYamlFileStore K) :
    (∀ e, (load ops fs store).2 = some e → (load ops fs store).1 = store) ∧
    ((load ops fs store).2 = none →
      (fs = FileSys.absent ∧ (load ops fs store).1 = store) ∨
      (∃ L, decodeFile ops fs = .ok L ∧
        (load ops fs store).1 = { store with gateways := L })) :=
  ⟨fun _ h => load_error_frame h, load_success⟩

/-- C1 witness: the amended theorem applied at concrete inputs — a faulty
filesystem (error leaves the store untouched) and a present empty file
(success replaces the list with the decoded content). -/
theorem C1_load_atomic_witness :
    (load wOps FileSys.ioError wStoreOne).1 = wStoreOne ∧
    ((FileSys.present (Raw.wellFormed []) = FileSys.absent ∧
        (load wOps (FileSys.present (Raw.wellFormed [])) wStoreOne).1 = wStoreOne) ∨
      (∃ L, decodeFile wOps (FileSys.present (Raw.wellFormed [])) = .ok L ∧
        (load wOps (FileSys.present (Raw.wellFormed [])) wStoreOne).1 =
          { wStoreOne with gateways := L })) :=
  ⟨(C1_load_atomic wOps FileSys.ioError wStoreOne).1 Err.storeNotExists rfl,
   (C1_load_atomic wOps (FileSys.present (Raw.wellFormed [])) wStoreOne).2 rfl⟩

/-- C2: from a store in sync with its file and not yet containing the
local ID, `AddGateway` succeeds; calling it again with the same local ID
returns `ErrAlreadyExists` while mutating neither the file nor the
in-memory list, and the store then contains exactly one record for that
ID. -/
theorem C2_add_twice_already_exists {K : Type} (ops : CryptoOps K)
    (fs : FileSys) (store : GatewayYamlFileStore K) (localID : EUI64)
    (key key2 : K) (nid : EUI64) (hash : List Nat)
    (hsync : decodeFile ops fs = .ok store.gateways)
    (hnot : ∀ g ∈ store.gateways, g.LocalGatewayID ≠ localID)
    (hrt : ops.hexToECDSA (ops.fromECDSA key) = .ok key)
    (hd : ops.derive key = .ok (nid, hash)) :
    ∃ fs1 store1,
      AddGateway ops fs store localID key = (fs1, store1, none) ∧
      AddGateway ops fs1 store1 localID key2 = (fs1, store1, some Err.alreadyExists) ∧
      List.countP (fun g => decide (g.LocalGatewayID = localID)) store1.gateways = 1 := by
  have hl0 : GatewayByLocalID store localID = .error Err.notFound :=
    firstMatch_eq_notFound hnot
  obtain ⟨fs1, h1⟩ := addGateway_fresh_success hsync hl0 hrt hd
  refine ⟨fs1, _, h1, ?_, ?_⟩
  · have hl1 : GatewayByLocalID
        { store with gateways := store.gateways ++
          [{ LocalGatewayID := localID, NetworkGatewayID := nid,
             CompressedPublicKeyBytes := hash, privateKey := key }] } localID =
        .ok { LocalGatewayID := localID, NetworkGatewayID := nid,
              CompressedPublicKeyBytes := hash, privateKey := key } :=
      firstMatch_append_first (fun g2 hg2 => hnot g2 hg2) rfl
    rw [AddGateway.eq_def, hl1]
  · rw [List.countP_append]
    have hz : List.countP (fun g2 => decide (g2.LocalGatewayID = localID))
        store.gateways = 0 := by
      rw [List.countP_eq_zero]
      intro a ha
      simp only [decide_eq_true_eq]
      exact hnot a ha
    rw [hz]
    simp [List.countP_cons]

/-- C2 witness: adding `wId1` twice to the empty store over an absent
file. -/
theorem C2_add_twice_already_exists_witness :
    ∃ fs1 store1,
      AddGateway wOps FileSys.absent wStoreEmpty wId1 1 = (fs1, store1, none) ∧
      AddGateway wOps fs1 store1 wId1 2 = (fs1, store1, some Err.alreadyExists) ∧
      List.countP (fun g => decide (g.LocalGatewayID = wId1)) store1.gateways = 1 :=
  C2_add_twice_already_exists wOps FileSys.absent wStoreEmpty wId1 1 2
    (List.replicate 8 1) (List.replicate 32 1) rfl (by decide) rfl rfl

/-- C3: if `AddGateway` succeeds from a store in sync with its file and
the key round-trips through its persisted hex form, an immediately
following lookup by local ID returns a record whose network ID and
ThingsIX hash are the ones derived directly from the key. -/
theorem C3_add_then_lookup_derived {K : Type} {ops : CryptoOps K}
    {fs fs1 : FileSys} {store store1 : GatewayYamlFileStore K}
    {localID : EUI64} {key : K}
    (hsync : decodeFile ops fs = .ok store.gateways)
    (hrt : ops.hexToECDSA (ops.fromECDSA key) = .ok key)
    (h1 : AddGateway ops fs store localID key = (fs1, store1, none)) :
    ∃ nid hash,
      ops.derive key = .ok (nid, hash) ∧
      GatewayByLocalID store1 localID =
        .ok { LocalGatewayID := localID, NetworkGatewayID := nid,
              CompressedPublicKeyBytes := hash, privateKey := key } := by
  obtain ⟨hl0, recs, k2, nid, hash, old, hfs, hfs1, hx, hd, hr, hst⟩ :=
    addGateway_success h1
  rw [hrt] at hx
  injection hx with hk
  subst hk
  have hnotst := (firstMatch_error hl0).2
  have hold : old = store.gateways := by
    rcases hfs with ⟨hfa, hrecs⟩ | hfp
    · subst hrecs
      have h2 : (Except.ok [] : Except Err (List (Gateway K))) = .ok old := hr
      injection h2 with h3
      subst hfa
      have h4 : (Except.ok [] : Except Err (List (Gateway K))) = .ok store.gateways := hsync
      injection h4 with h5
      rw [← h3, ← h5]
    · subst hfp
      have h2 : decodeGateways ops recs = .ok store.gateways := hsync
      rw [h2] at hr
      injection hr with h3
      exact h3.symm
  refine ⟨nid, hash, hd, ?_⟩
  rw [hst]
  refine firstMatch_append_first ?_ rfl
  intro g2 hg2
  rw [hold] at hg2
  exact hnotst g2 hg2

/-- C3 witness: the add of `wId1` with key `1` to the empty store, then the
lookup. -/
theorem C3_add_then_lookup_derived_witness :
    ∃ nid hash,
      wOps.derive 1 = .ok (nid, hash) ∧
      GatewayByLocalID wStoreOne wId1 =
        .ok { LocalGatewayID := wId1, NetworkGatewayID := nid,
              CompressedPublicKeyBytes := hash, privateKey := 1 } :=
  C3_add_then_lookup_derived
    (show decodeFile wOps FileSys.absent = .ok wStoreEmpty.gateways from rfl)
    (show wOps.hexToECDSA (wOps.fromECDSA 1) = .ok 1 from rfl)
    (show AddGateway wOps FileSys.absent wStoreEmpty wId1 1 =
      (FileSys.present (Raw.wellFormed [wRec1]), wStoreOne, none) from rfl)

/-- C4: the variable-length byte lookups fail with `ErrInvalidGatewayID`
whenever the buffer length differs from 8, regardless of buffer content
and store contents, and on length exactly 8 they return exactly the result
of the corresponding fixed 8-byte lookup on those bytes. -/
theorem C4_bytes_lookup_length_check {K : Type} (store : GatewayYamlFileStore K)
    (id : List Nat) :
    (id.length ≠ 8 →
      GatewayByLocalIDBytes store id = .error Err.invalidGatewayID ∧
      GatewayByNetworkIDBytes store id = .error Err.invalidGatewayID) ∧
    (id.length = 8 →
      GatewayByLocalIDBytes store id = GatewayByLocalID store id ∧
      GatewayByNetworkIDBytes store id = GatewayByNetworkID store id) := by
  constructor
  · intro hne
    exact ⟨by rw [GatewayByLocalIDBytes, if_neg hne],
           by rw [GatewayByNetworkIDBytes, if_neg hne]⟩
  · intro heq
    have hcopy : copyEUI64 id = id := by
      rw [copyEUI64, heq]
      simp [List.take_of_length_le (le_of_eq heq)]
    exact ⟨by rw [GatewayByLocalIDBytes, if_pos heq, hcopy],
           by rw [GatewayByNetworkIDBytes, if_pos heq, hcopy]⟩

/-- C4 witness: a 3-byte buffer is rejected; an 8-byte buffer delegates to
the fixed lookup. -/
theorem C4_bytes_lookup_length_check_witness :
    GatewayByLocalIDBytes wStoreOne [1, 2, 3] = .error Err.invalidGatewayID ∧
    GatewayByLocalIDBytes wStoreOne wId1 = GatewayByLocalID wStoreOne wId1 :=
  ⟨((C4_bytes_lookup_length_check wStoreOne [1, 2, 3]).1 (by decide)).1,
   ((C4_bytes_lookup_length_check wStoreOne wId1).2 (by decide)).1⟩

/-- C5: when no record matches the identifier, each of the three
fixed-width lookups returns `ErrNotFound`. -/
theorem C5_lookup_miss_not_found {K : Type} (store : GatewayYamlFileStore K)
    (tid : List Nat) (lid nid : EUI64)
    (ht : ∀ g ∈ store.gateways, g.CompressedPublicKeyBytes ≠ tid)
    (hl : ∀ g ∈ store.gateways, g.LocalGatewayID ≠ lid)
    (hn : ∀ g ∈ store.gateways, g.NetworkGatewayID ≠ nid) :
    GatewayByThingsIxID store tid = .error Err.notFound ∧
    GatewayByLocalID store lid = .error Err.notFound ∧
    GatewayByNetworkID store nid = .error Err.notFound :=
  ⟨firstMatch_eq_notFound ht, firstMatch_eq_notFound hl, firstMatch_eq_notFound hn⟩

/-- C5 witness: identifiers matching nothing in a one-record store. -/
theorem C5_lookup_miss_not_found_witness :
    GatewayByThingsIxID wStoreOne (List.replicate 32 9) = .error Err.notFound ∧
    GatewayByLocalID wStoreOne wId2 = .error Err.notFound ∧
    GatewayByNetworkID wStoreOne (List.replicate 8 9) = .error Err.notFound :=
  C5_lookup_miss_not_found wStoreOne (List.replicate 32 9) wId2 (List.replicate 8 9)
    (by decide) (by decide) (by decide)

/-- C6: starting from an initially empty store over an absent file, two
sequential `AddGateway` calls with distinct local IDs both succeed and
leave `Gateways` returning exactly the two records, in insertion order. -/
theorem C6_two_adds_insertion_order {K : Type} (ops : CryptoOps K)
    (path : String) (id1 id2 : EUI64) (key1 key2 : K)
    (nid1 nid2 : EUI64) (hs1 hs2 : List Nat)
    (hne : id1 ≠ id2)
    (hrt1 : ops.hexToECDSA (ops.fromECDSA key1) = .ok key1)
    (hrt2 : ops.hexToECDSA (ops.fromECDSA key2) = .ok key2)
    (hd1 : ops.derive key1 = .ok (nid1, hs1))
    (hd2 : ops.derive key2 = .ok (nid2, hs2)) :
    ∃ fs1 store1 fs2 store2,
      AddGateway ops FileSys.absent { Path := path, gateways := [] } id1 key1 =
        (fs1, store1, none) ∧
      AddGateway ops fs1 store1 id2 key2 = (fs2, store2, none) ∧
      Gateways store2 =
        [{ LocalGatewayID := id1, NetworkGatewayID := nid1,
           CompressedPublicKeyBytes := hs1, privateKey := key1 },
         { LocalGatewayID := id2, NetworkGatewayID := nid2,
           CompressedPublicKeyBytes := hs2, privateKey := key2 }] := by
  have hdec1 : decodeGateways ops [{ LocalID := id1, PrivateKey := ops.fromECDSA key1 }] =
      .ok [{ LocalGatewayID := id1, NetworkGatewayID := nid1,
             CompressedPublicKeyBytes := hs1, privateKey := key1 }] :=
    loadDecode_single hrt1 hd1
  have hdec2 : decodeGateways ops
      [{ LocalID := id1, PrivateKey := ops.fromECDSA key1 },
       { LocalID := id2, PrivateKey := ops.fromECDSA key2 }] =
      .ok [{ LocalGatewayID := id1, NetworkGatewayID := nid1,
             CompressedPublicKeyBytes := hs1, privateKey := key1 },
           { LocalGatewayID := id2, NetworkGatewayID := nid2,
             CompressedPublicKeyBytes := hs2, privateKey := key2 }] := by
    simp [decodeGateways, hrt1, hrt2, NewGateway, hd1, hd2]
  refine ⟨FileSys.present (Raw.wellFormed [{ LocalID := id1, PrivateKey := ops.fromECDSA key1 }]),
          { Path := path, gateways :=
            [{ LocalGatewayID := id1, NetworkGatewayID := nid1,
               CompressedPublicKeyBytes := hs1, privateKey := key1 }] },
          FileSys.present (Raw.wellFormed
            [{ LocalID := id1, PrivateKey := ops.fromECDSA key1 },
             { LocalID := id2, PrivateKey := ops.fromECDSA key2 }]),
          { Path := path, gateways :=
            [{ LocalGatewayID := id1, NetworkGatewayID := nid1,
               CompressedPublicKeyBytes := hs1, privateKey := key1 },
             { LocalGatewayID := id2, NetworkGatewayID := nid2,
               CompressedPublicKeyBytes := hs2, privateKey := key2 }] },
          ?_, ?_, rfl⟩
  · have hl0 : GatewayByLocalID { Path := path, gateways := ([] : List (Gateway K)) } id1 =
        .error Err.notFound := rfl
    rw [AddGateway.eq_def, hl0]
    simp only [addGatewayBody, yamlMarshal, appendFile]
    rw [load_present_ok _ hdec1]
  · have hl1 : GatewayByLocalID
        { Path := path, gateways :=
          [{ LocalGatewayID := id1, NetworkGatewayID := nid1,
             CompressedPublicKeyBytes := hs1, privateKey := key1 }] } id2 =
        (.error Err.notFound : Except Err (Gateway K)) := by
      simp [GatewayByLocalID, firstMatch, hne]
    rw [AddGateway.eq_def, hl1]
    simp only [addGatewayBody, yamlMarshal, appendFile, Raw.append,
      List.singleton_append]
    rw [load_present_ok _ hdec2]

/-- C6 witness: the two concrete adds. -/
theorem C6_two_adds_insertion_order_witness :
    ∃ fs1 store1 fs2 store2,
      AddGateway wOps FileSys.absent wStoreEmpty wId1 1 = (fs1, store1, none) ∧
      AddGateway wOps fs1 store1 wId2 2 = (fs2, store2, none) ∧
      Gateways store2 = [wGw1, wGw2] :=
  C6_two_adds_insertion_order wOps "p" wId1 wId2 1 2
    (List.replicate 8 1) (List.replicate 8 2)
    (List.replicate 32 1) (List.replicate 32 2)
    (by decide) rfl rfl rfl rfl

/-- C7: whether the backing file is absent or present but empty,
construction succeeds and `Gateways` returns the empty sequence. -/
theorem C7_construct_empty {K : Type} (ops : CryptoOps K) (path : String) :
    LoadGatewayYamlFileStore ops FileSys.absent path =
      .ok { Path := path, gateways := [] } ∧
    LoadGatewayYamlFileStore ops (FileSys.present (Raw.wellFormed [])) path =
      .ok { Path := path, gateways := [] } ∧
    Gateways ({ Path := path, gateways := [] } : GatewayYamlFileStore K) = [] :=
  ⟨rfl, rfl, rfl⟩

/-- C8: a successful `AddGateway` leaves the file equal to its previous
contents with exactly the newly encoded record appended at the end; every
previously persisted entry is unchanged. -/
theorem C8_append_only {K : Type} {ops : CryptoOps K} {fs fs1 : FileSys}
    {store store1 : GatewayYamlFileStore K} {localID : EUI64} {key : K}
    (h1 : AddGateway ops fs store localID key = (fs1, store1, none)) :
    (fs = FileSys.absent →
      fs1 = FileSys.present (Raw.wellFormed
        [{ LocalID := localID, PrivateKey := ops.fromECDSA key }])) ∧
    (∀ recs, fs = FileSys.present (Raw.wellFormed recs) →
      fs1 = FileSys.present (Raw.wellFormed
        (recs ++ [{ LocalID := localID, PrivateKey := ops.fromECDSA key }]))) := by
  obtain ⟨_, recs, k2, nid, hash, old, hfs, hfs1, _, _, _, _⟩ := addGateway_success h1
  constructor
  · intro hab
    rcases hfs with ⟨_, hrecs⟩ | hfp
    · subst hrecs
      simpa using hfs1
    · rw [hab] at hfp
      exact FileSys.noConfusion hfp
  · intro recs2 hp
    rcases hfs with ⟨habs, _⟩ | hfp
    · rw [hp] at habs
      exact FileSys.noConfusion habs
    · rw [hp] at hfp
      injection hfp with hraw
      injection hraw with hrecs
      rw [hrecs]
      exact hfs1

/-- C8 witness: appending the record for `wId2` to a file already holding
the record for `wId1`. -/
theorem C8_append_only_witness :
    FileSys.present (Raw.wellFormed [wRec1, wRec2]) =
      FileSys.present (Raw.wellFormed ([wRec1] ++ [wRec2])) :=
  (C8_append_only
    (show AddGateway wOps (FileSys.present (Raw.wellFormed [wRec1])) wStoreOne wId2 2 =
      (FileSys.present (Raw.wellFormed [wRec1, wRec2]), wStoreTwo, none) from rfl)).2
    [wRec1] rfl

/-- C9: lookups return the first matching record in list order: whenever
the in-memory list splits as `pre ++ g :: post` with no match in `pre`,
the lookup for `g`'s identifier returns `g`, for each of the three
identifier kinds (so duplicate local IDs loaded from the file resolve to
the earlier record). -/
theorem C9_first_match_wins {K : Type} (store : GatewayYamlFileStore K)
    (pre post : List (Gateway K)) (g : Gateway K)
    (hsplit : store.gateways = pre ++ g :: post) :
    ((∀ g2 ∈ pre, g2.LocalGatewayID ≠ g.LocalGatewayID) →
      GatewayByLocalID store g.LocalGatewayID = .ok g) ∧
    ((∀ g2 ∈ pre, g2.NetworkGatewayID ≠ g.NetworkGatewayID) →
      GatewayByNetworkID store g.NetworkGatewayID = .ok g) ∧
    ((∀ g2 ∈ pre, g2.CompressedPublicKeyBytes ≠ g.CompressedPublicKeyBytes) →
      GatewayByThingsIxID store g.CompressedPublicKeyBytes = .ok g) := by
  refine ⟨fun h => ?_, fun h => ?_, fun h => ?_⟩
  · rw [GatewayByLocalID, hsplit]
    exact firstMatch_append_first h rfl
  · rw [GatewayByNetworkID, hsplit]
    exact firstMatch_append_first h rfl
  · rw [GatewayByThingsIxID, hsplit]
    exact firstMatch_append_first h rfl

/-- C9 witness: a store holding two records with the same local ID returns
the first of them. -/
theorem C9_first_match_wins_witness :
    GatewayByLocalID wStoreDup wId1 = .ok wGw1 :=
  (C9_first_match_wins wStoreDup [] [wGw1b] wGw1 rfl).1 (by decide)

/-- C10: each fixed-width lookup returns either a record or exactly
`ErrNotFound`; consequently `AddGateway` coincides with its variant whose
defensive branch propagating other lookup errors is removed — that branch
is unreachable. -/
theorem C10_lookup_total_default_unreachable {K : Type}
    (store : GatewayYamlFileStore K) (tid : List Nat) (lid nid : EUI64)
    (ops : CryptoOps K) (fs : FileSys) (localID : EUI64) (key : K) :
    ((∃ g, GatewayByThingsIxID store tid = .ok g) ∨
      GatewayByThingsIxID store tid = .error Err.notFound) ∧
    ((∃ g, GatewayByLocalID store lid = .ok g) ∨
      GatewayByLocalID store lid = .error Err.notFound) ∧
    ((∃ g, GatewayByNetworkID store nid = .ok g) ∨
      GatewayByNetworkID store nid = .error Err.notFound) ∧
    AddGateway ops fs store localID key = AddGatewayNoDefault ops fs store localID key := by
  refine ⟨firstMatch_cases _ _, firstMatch_cases _ _, firstMatch_cases _ _, ?_⟩
  cases hl : GatewayByLocalID store localID with
  | ok g =>
    rw [AddGateway.eq_def, AddGatewayNoDefault.eq_def, hl]
  | error e =>
    obtain ⟨he, _⟩ := firstMatch_error hl
    subst he
    rw [AddGateway.eq_def, AddGatewayNoDefault.eq_def, hl]

end ThingsIx
